import Mathlib

/-!
Verification of the TRIPZZAN_GOOGLE streaming conversation session manager.

The definitions below are a shallow embedding of the TypeScript source:
`src/services/geminiService.ts` (session init, `sendMessage` streaming loop and
error classification) and the `App` component (message-history fold,
`initializeChatSession`, `handleSendMessage`, `handleRetry`) together with the
`ChatInput.handleSubmit` guard, the `INITIAL_PROMPT_TEMPLATE` constant and the
template-substitution loop.  JavaScript strings are embedded as `List Char`;
the JS `+` on strings is list append.
-/

/-- `ChatMessage.role` from `types.ts`: either the literal `user` or `model`. -/
inductive Role where
  | user
  | model
deriving DecidableEq, Repr

/-- `ChatMessage` from `types.ts`: `\x7b role, content \x7d`. -/
structure ChatMessage where
  role : Role
  content : List Char
deriving DecidableEq, Repr

/-- Concatenation of a list of fragments in delivery order (`f1+f2+...+fn`). -/
def concatAll : List (List Char) → List Char
  | [] => []
  | f :: fs => f ++ concatAll fs

/-- JS `haystack.includes(needle)` on strings: `needle` occurs contiguously. -/
def hasSub : List Char → List Char → Bool
  | [], pat => pat.isEmpty
  | a :: rest, pat => pat.isPrefixOf (a :: rest) || hasSub rest pat

/-- JS `String.prototype.replace` with a plain string pattern: replaces the
first occurrence of `pat` only (used by the template substitution loop). -/
def replaceFirst : List Char → List Char → List Char → List Char
  | [], pat, repl => if pat.isEmpty then repl else []
  | a :: rest, pat, repl =>
    if pat.isPrefixOf (a :: rest) then repl ++ (a :: rest).drop pat.length
    else a :: replaceFirst rest pat repl

/-- JS `Array.prototype.map` with element index, as used by the fold
(`prevMessages.map((msg, idx) => ...)`); `s` is the index of the head. -/
def mapWithIdx (f : Nat → ChatMessage → ChatMessage) : Nat → List ChatMessage → List ChatMessage
  | _, [] => []
  | s, m :: rest => f s m :: mapWithIdx f (s + 1) rest

/-- The per-fragment fold `onChunkReceived` performs on the history (identical
closure in `initializeChatSession` and `handleSendMessage`): if the last
message is a MODEL message, append the chunk to its content in place
(via indexed map over the array); otherwise push a new MODEL message. -/
def appendChunk (prevMessages : List ChatMessage) (chunk : List Char) : List ChatMessage :=
  match prevMessages.getLast? with
  | some lastMessage =>
    if lastMessage.role = Role.model then
      mapWithIdx
        (fun idx msg =>
          if idx = prevMessages.length - 1 then
            { msg with content := msg.content ++ chunk }
          else msg)
        0 prevMessages
    else prevMessages ++ [⟨Role.model, chunk⟩]
  | none => prevMessages ++ [⟨Role.model, chunk⟩]

/-- `TravelPlan` from `types.ts` (the spec calls it Profile; spec field names
`dateRange`/`partySize`/`budget`/`style`/`interests` correspond to
`travelDates`/`travelers`/`totalBudget`/`travelStyle`/`specialInterests`). -/
structure TravelPlan where
  destination : List Char
  travelDates : List Char
  travelers : Nat
  totalBudget : Nat
  travelStyle : List Char
  specialInterests : List Char
deriving DecidableEq, Repr

/-- `INITIAL_PROMPT_TEMPLATE` from `constants.ts`, verbatim
(braces written with escapes). -/
def INITIAL_PROMPT_TEMPLATE : List Char :=
  ("제가 계획 중인 여행 정보는 다음과 같습니다:
- 목적지: \x7bdestination\x7d
- 여행 기간: \x7btravelDates\x7d
- 인원수: \x7btravelers\x7d명
- 총 예산: \x7btotalBudget\x7d원
- 여행 스타일: \x7btravelStyle\x7d
- 특별 관심사: \x7bspecialInterests\x7d

이 정보를 바탕으로, 제가 이 여행에서 최대한 비용을 절감하면서도 만족도 높은 경험을 할 수 있도록 구체적이고 실용적인 조언을 해주세요. 항공권, 숙소, 식사, 활동, 현지 교통 등 전반적인 예산 절감 팁과 함께, 추천할 만한 무료/저가 명소도 알려주시면 감사하겠습니다.").data

/-- The template-substitution loop of `initializeChatSession`:
`for (const key in plan) initialPrompt = initialPrompt.replace(..., String(plan[key]))`.
JS enumerates the keys in insertion order, which is the question order
(`destination`, `travelDates`, `travelers`, `totalBudget`, `travelStyle`,
`specialInterests`); `String(n)` on the numeric fields is plain decimal. -/
def renderInitialPrompt (plan : TravelPlan) : List Char :=
  let p0 := INITIAL_PROMPT_TEMPLATE
  let p1 := replaceFirst p0 (("\x7bdestination\x7d").data) plan.destination
  let p2 := replaceFirst p1 (("\x7btravelDates\x7d").data) plan.travelDates
  let p3 := replaceFirst p2 (("\x7btravelers\x7d").data) ((Nat.repr plan.travelers).data)
  let p4 := replaceFirst p3 (("\x7btotalBudget\x7d").data) ((Nat.repr plan.totalBudget).data)
  let p5 := replaceFirst p4 (("\x7btravelStyle\x7d").data) plan.travelStyle
  replaceFirst p5 (("\x7bspecialInterests\x7d").data) plan.specialInterests

/-- Message of the `sendMessage` guard in `geminiService.ts`. -/
def notInitializedMsg : List Char :=
  ("Gemini chat session is not initialized. Please call initGeminiChat first.").data

/-- The remote service's entity-not-found signature checked in the
`sendMessage` catch block. -/
def entityNotFoundSig : List Char := ("Requested entity was not found.").data

/-- Message thrown after prompting for key selection (`sendMessage` catch). -/
def apiKeySelectMsg : List Char :=
  ("API key might be invalid or project not configured. Please try again after selecting API key.").data

/-- Prefix of the generic wrap in the `sendMessage` catch block. -/
def failedWrapPre : List Char := ("Failed to get response from Gemini: ").data

/-- Fallback when the underlying error has no message. -/
def unknownErrorMsg : List Char := ("Unknown error").data

/-- Substring the App-level catch blocks test to decide whether to clear
`travelPlan` (`err.message.includes`). -/
def apiKeyMarker : List Char := ("API key").data

/-- Error surfaced by `handleSendMessage` when `chatRef.current` is null. -/
def sessionNotInitKoMsg : List Char := ("채팅 세션이 초기화되지 않았습니다.").data

/-- How one turn's response stream behaves: the raw chunks the `for await`
loop observes, then either normal completion or a thrown failure. -/
inductive StreamTermination where
  | success
  | failure (emsg : List Char)
deriving DecidableEq, Repr

/-- A turn's stream: raw chunk texts in arrival order plus how it ends. -/
structure StreamBehavior where
  chunks : List (List Char)
  ending : StreamTermination
deriving DecidableEq, Repr

/-- How `sendMessage` returns to its caller. -/
inductive SendOutcome where
  | ok (fullResponse : List Char)
  | thrown (emsg : List Char)
deriving DecidableEq, Repr

/-- Observable behavior of one `sendMessage` call: the chunk texts passed to
`onChunkReceived` in order, whether `window.aistudio.openSelectKey()` was
invoked, and the return/throw. -/
structure SendResult where
  delivered : List (List Char)
  prompted : Bool
  outcome : SendOutcome
deriving DecidableEq, Repr

/-- `sendMessage` from `geminiService.ts`.  `chatInitialized` models
`currentChat !== null`; `aistudio` models the presence of
`window.aistudio && window.aistudio.openSelectKey`.  The `for await` loop
skips falsy (empty) `chunk.text` values; on a thrown stream error the catch
block classifies it by the entity-not-found signature.  The `history`
parameter is declared (as in the source) but never read. -/
def sendMessage (chatInitialized : Bool) (aistudio : Bool) (message : List Char)
    (history : List ChatMessage) (stream : StreamBehavior) : SendResult :=
  if !chatInitialized then
    { delivered := [], prompted := false, outcome := SendOutcome.thrown notInitializedMsg }
  else
    let delivered := stream.chunks.filter (fun c => !c.isEmpty)
    match stream.ending with
    | StreamTermination.success =>
      { delivered := delivered, prompted := false,
        outcome := SendOutcome.ok (concatAll delivered) }
    | StreamTermination.failure emsg =>
      if hasSub emsg entityNotFoundSig && aistudio then
        { delivered := delivered, prompted := true,
          outcome := SendOutcome.thrown apiKeySelectMsg }
      else
        { delivered := delivered, prompted := false,
          outcome := SendOutcome.thrown
            (failedWrapPre ++ (if emsg.isEmpty then unknownErrorMsg else emsg)) }

/-- The App component's state: `messages`, `isLoading`, `error`, `travelPlan`,
and whether `chatRef.current` holds a session. -/
structure AppState where
  messages : List ChatMessage
  isLoading : Bool
  error : Option (List Char)
  travelPlan : Option TravelPlan
  chatInitialized : Bool
deriving DecidableEq, Repr

/-- `handleSendMessage` from `App`: guard on `chatRef.current`, append the
USER message, stream the turn folding each delivered chunk with
`appendChunk`, and in the catch set the error and clear `travelPlan` when the
message mentions the API key.  `isLoading` ends false (the `finally`). -/
def handleSendMessage (s : AppState) (aistudio : Bool) (text : List Char)
    (stream : StreamBehavior) : AppState :=
  if !s.chatInitialized then
    { s with error := some sessionNotInitKoMsg }
  else
    let afterUser := s.messages ++ [⟨Role.user, text⟩]
    let r := sendMessage s.chatInitialized aistudio text s.messages stream
    let folded := r.delivered.foldl appendChunk afterUser
    match r.outcome with
    | SendOutcome.ok _ =>
      { messages := folded, isLoading := false, error := none,
        travelPlan := s.travelPlan, chatInitialized := s.chatInitialized }
    | SendOutcome.thrown emsg =>
      { messages := folded, isLoading := false, error := some emsg,
        travelPlan := if hasSub emsg apiKeyMarker then none else s.travelPlan,
        chatInitialized := s.chatInitialized }

/-- Truthiness of `input.trim()` in `ChatInput.handleSubmit`: the trim is
non-empty iff some character is not whitespace. -/
def trimNonempty (input : List Char) : Bool :=
  !((input.dropWhile Char.isWhitespace).isEmpty)

/-- `ChatInput.handleSubmit`: forwards to `onSendMessage` (the App's
`handleSendMessage`) only when `input.trim()` is truthy and not loading;
otherwise the submission does nothing. -/
def handleSubmit (s : AppState) (aistudio : Bool) (input : List Char)
    (stream : StreamBehavior) : AppState :=
  if trimNonempty input && !s.isLoading then handleSendMessage s aistudio input stream
  else s

/-- How one `initializeChatSession` run goes: either a throw from
`ensureApiKeySelected`/`initGeminiChat` (both happen before `setTravelPlan`
and before the bootstrap USER message is appended), or the session opens and
the bootstrap turn streams with the given behavior. -/
inductive InitOutcome where
  | initFails (emsg : List Char)
  | streaming (stream : StreamBehavior)
deriving DecidableEq, Repr

/-- `initializeChatSession` from `App`: on an early failure only the error is
set (and `travelPlan` cleared when the message mentions the API key); else it
stores the plan, REPLACES `messages` with the single bootstrap USER message
(`setMessages([...])`), and runs the turn like `handleSendMessage`. -/
def initializeChatSession (s : AppState) (aistudio : Bool) (plan : TravelPlan)
    (outcome : InitOutcome) : AppState :=
  match outcome with
  | InitOutcome.initFails emsg =>
    { s with
      isLoading := false,
      error := some emsg,
      travelPlan := if hasSub emsg apiKeyMarker then none else s.travelPlan }
  | InitOutcome.streaming stream =>
    let initialPrompt := renderInitialPrompt plan
    let afterUser := [(⟨Role.user, initialPrompt⟩ : ChatMessage)]
    let r := sendMessage true aistudio initialPrompt afterUser stream
    let folded := r.delivered.foldl appendChunk afterUser
    match r.outcome with
    | SendOutcome.ok _ =>
      { messages := folded, isLoading := false, error := none,
        travelPlan := some plan, chatInitialized := true }
    | SendOutcome.thrown emsg =>
      { messages := folded, isLoading := false, error := some emsg,
        travelPlan := if hasSub emsg apiKeyMarker then none else some plan,
        chatInitialized := true }

/-- `handleRetry` from `App`: clear the error; if a `travelPlan` is stored,
restart the whole session with it, else clear the history and fall back to
the initial questions. -/
def handleRetry (s : AppState) (aistudio : Bool) (outcome : InitOutcome) : AppState :=
  match s.travelPlan with
  | some plan => initializeChatSession { s with error := none } aistudio plan outcome
  | none => { s with error := none, travelPlan := none, messages := [] }

/-- State for the supersession trace model: the published history plus a
counter naming the currently live session handle. -/
structure SessionTraceState where
  messages : List ChatMessage
  currentHandle : Nat
deriving DecidableEq, Repr

/-- Interleaving events: a new `start()` (which replaces the history with the
new bootstrap USER message and supersedes the handle), or a fragment
delivered by the stream belonging to session `handle`. -/
inductive StreamEvent where
  | startNew (prompt : List Char)
  | fragment (handle : Nat) (chunk : List Char)
deriving DecidableEq, Repr

/-- The code's behavior per event: `initializeChatSession` replaces the
history; a delivered fragment is folded by the `onChunkReceived` closure,
which inspects NOTHING about which session it came from (the `for await`
loop in `sendMessage` keeps consuming the old stream after `currentChat` is
reassigned, and keeps invoking the callback for every truthy chunk). -/
def stepCode (s : SessionTraceState) : StreamEvent → SessionTraceState
  | StreamEvent.startNew prompt =>
    { messages := [⟨Role.user, prompt⟩], currentHandle := s.currentHandle + 1 }
  | StreamEvent.fragment _ chunk =>
    if chunk.isEmpty then s
    else { s with messages := appendChunk s.messages chunk }

/-- Modelled from the spec's words (§5 Cancellation, P3), for refinement
comparison only: fragments are tagged with their session handle and any
fragment whose handle no longer matches the current handle is dropped. -/
def stepSpecDropStale (s : SessionTraceState) : StreamEvent → SessionTraceState
  | StreamEvent.startNew prompt =>
    { messages := [⟨Role.user, prompt⟩], currentHandle := s.currentHandle + 1 }
  | StreamEvent.fragment h chunk =>
    if h = s.currentHandle then
      if chunk.isEmpty then s
      else { s with messages := appendChunk s.messages chunk }
    else s

/-- Run a trace of interleaved events under a step function. -/
def runTrace (step : SessionTraceState → StreamEvent → SessionTraceState)
    (s : SessionTraceState) (tr : List StreamEvent) : SessionTraceState :=
  tr.foldl step s

/-- The profile of spec property P6, with the code's field names. -/
def p6Profile : TravelPlan :=
  { destination := ("Tokyo").data, travelDates := ("3/1-3/5").data, travelers := 2,
    totalBudget := 500000, travelStyle := ("backpacking").data,
    specialInterests := ("food").data }

/-- A small concrete profile used by several concrete evaluations. -/
def tinyPlan : TravelPlan :=
  { destination := ("X").data, travelDates := ("d").data, travelers := 1,
    totalBudget := 10, travelStyle := ("s").data, specialInterests := ("i").data }

/-- A stream delivering one chunk then completing normally. -/
def okStream : StreamBehavior :=
  { chunks := [("ok").data], ending := StreamTermination.success }

/-- A stream that yields one fragment and then fails. -/
def failAfterOneStream : StreamBehavior :=
  { chunks := [("Sure, ").data], ending := StreamTermination.failure (("boom").data) }

/-- App state after a send turn failed mid-stream: bootstrap turn plus a
failed second turn with a partial MODEL message, plan stored, session live. -/
def c2FailedState : AppState :=
  { messages := [⟨Role.user, ("bootstrap").data⟩, ⟨Role.model, ("m1").data⟩,
      ⟨Role.user, ("cheap flights?").data⟩, ⟨Role.model, ("Sure, ").data⟩],
    isLoading := false,
    error := some (("Failed to get response from Gemini: boom").data),
    travelPlan := some tinyPlan, chatInitialized := true }

/-- App state while a prior turn is awaiting its response (`isLoading`). -/
def c3LoadingState : AppState :=
  { messages := [⟨Role.user, ("a").data⟩, ⟨Role.model, ("b").data⟩],
    isLoading := true, error := none, travelPlan := none, chatInitialized := true }

/-- App state with no initialized chat session. -/
def c3NoSessionState : AppState :=
  { messages := [⟨Role.user, ("a").data⟩],
    isLoading := false, error := none, travelPlan := none, chatInitialized := false }

/-- Trace: session 1 starts and streams one live fragment; a new `start`
supersedes it; then a late fragment of the superseded session 1 arrives. -/
def c4Trace : List StreamEvent :=
  [StreamEvent.startNew (("u1").data), StreamEvent.fragment 1 (("live").data),
   StreamEvent.startNew (("u2").data), StreamEvent.fragment 1 (("stale").data)]

/-- Initial trace state: empty history, no session yet. -/
def c4Init : SessionTraceState := { messages := [], currentHandle := 0 }

/-- App state with a closed previous turn, ready for a new send. -/
def c5State : AppState :=
  { messages := [⟨Role.user, ("bootstrap").data⟩, ⟨Role.model, ("earlier").data⟩],
    isLoading := false, error := none, travelPlan := some tinyPlan,
    chatInitialized := true }

/-- The app's initial state (`UNINITIALIZED`): nothing collected yet. -/
def c8Init : AppState :=
  { messages := [], isLoading := false, error := none, travelPlan := none,
    chatInitialized := false }

/-- The error `initGeminiChat` throws when the key is missing (note the
capital `Key`, which the `includes` check on the lowercase marker misses). -/
def c8InitErr : List Char :=
  ("Gemini API Key is not set in environment variables.").data

/-- App state with a live session and a stored plan, for error classification. -/
def c9State : AppState :=
  { messages := [⟨Role.user, ("u").data⟩],
    isLoading := false, error := none, travelPlan := some tinyPlan,
    chatInitialized := true }

/-- A failure mentioning the API key without the entity-not-found signature. -/
def c9Emsg : List Char := ("quota exceeded for this API key").data

theorem mapWithIdx_if (g : ChatMessage → ChatMessage) (t : Nat) :
    ∀ (l : List ChatMessage) (s : Nat) (m : ChatMessage), s + l.length = t →
    mapWithIdx (fun idx msg => if idx = t then g msg else msg) s (l ++ [m]) = l ++ [g m] := by
  intro l
  induction l with
  | nil =>
    intro s m hs
    have hst : s = t := by simpa using hs
    subst hst
    simp [mapWithIdx]
  | cons a l ih =>
    intro s m hs
    have hne : ¬ (s = t) := by
      simp only [List.length_cons] at hs
      omega
    have hs2 : (s + 1) + l.length = t := by
      simp only [List.length_cons] at hs
      omega
    simp only [List.cons_append, mapWithIdx, List.append_eq]
    rw [if_neg hne, ih (s + 1) m hs2]

theorem appendChunk_concat_model (l : List ChatMessage) (c chunk : List Char) :
    appendChunk (l ++ [⟨Role.model, c⟩]) chunk = l ++ [⟨Role.model, c ++ chunk⟩] := by
  have hmap := mapWithIdx_if (fun msg => { msg with content := msg.content ++ chunk })
      l.length l 0 ⟨Role.model, c⟩ (by simp)
  unfold appendChunk
  rw [List.getLast?_concat]
  simp [hmap]

theorem appendChunk_not_model (l : List ChatMessage)
    (h : ∀ m, l.getLast? = some m → m.role ≠ Role.model) (chunk : List Char) :
    appendChunk l chunk = l ++ [⟨Role.model, chunk⟩] := by
  unfold appendChunk
  cases hl : l.getLast? with
  | none => rfl
  | some m =>
    have hm := h m hl
    simp [hm]

theorem foldl_appendChunk_model (fs : List (List Char)) :
    ∀ (l : List ChatMessage) (c : List Char),
    fs.foldl appendChunk (l ++ [⟨Role.model, c⟩]) = l ++ [⟨Role.model, c ++ concatAll fs⟩] := by
  induction fs with
  | nil =>
    intro l c
    simp [concatAll]
  | cons f fs ih =>
    intro l c
    simp only [List.foldl_cons, concatAll]
    rw [appendChunk_concat_model, ih l (c ++ f), List.append_assoc]

theorem foldl_appendChunk_fresh (l : List ChatMessage)
    (h : ∀ m, l.getLast? = some m → m.role ≠ Role.model) (fs : List (List Char)) :
    fs.foldl appendChunk l =
      l ++ (if fs.isEmpty then [] else [⟨Role.model, concatAll fs⟩]) := by
  cases fs with
  | nil => simp
  | cons f fs =>
    simp only [List.foldl_cons, List.isEmpty_cons, if_neg Bool.false_ne_true]
    rw [appendChunk_not_model l h f, foldl_appendChunk_model fs l f]
    rfl

theorem foldl_after_user (h : List ChatMessage) (t : List Char) (fs : List (List Char)) :
    fs.foldl appendChunk (h ++ [⟨Role.user, t⟩]) =
      (h ++ [⟨Role.user, t⟩]) ++ (if fs.isEmpty then [] else [⟨Role.model, concatAll fs⟩]) := by
  apply foldl_appendChunk_fresh
  intro m hm
  rw [List.getLast?_concat] at hm
  cases hm
  intro hcontra
  exact Role.noConfusion hcontra

theorem foldl_single_user (t : List Char) (fs : List (List Char)) :
    fs.foldl appendChunk [⟨Role.user, t⟩] =
      [(⟨Role.user, t⟩ : ChatMessage)] ++ (if fs.isEmpty then [] else [⟨Role.model, concatAll fs⟩]) := by
  have := foldl_after_user [] t fs
  simpa using this

theorem handleRetry_streaming_messages (s : AppState) (aistudio : Bool) (plan : TravelPlan)
    (stream : StreamBehavior) (hp : s.travelPlan = some plan) :
    (handleRetry s aistudio (InitOutcome.streaming stream)).messages =
      [(⟨Role.user, renderInitialPrompt plan⟩ : ChatMessage)] ++
        (if (stream.chunks.filter (fun c => !c.isEmpty)).isEmpty then []
         else [⟨Role.model, concatAll (stream.chunks.filter (fun c => !c.isEmpty))⟩]) := by
  obtain ⟨chunks, ending⟩ := stream
  cases ending with
  | success =>
    simp [handleRetry, hp, initializeChatSession, sendMessage, foldl_single_user]
  | failure emsg =>
    by_cases hsig : (hasSub emsg entityNotFoundSig && aistudio) = true
    · simp [handleRetry, hp, initializeChatSession, sendMessage, hsig, foldl_single_user]
    · simp [handleRetry, hp, initializeChatSession, sendMessage, hsig, foldl_single_user]

theorem hasSub_append_head_miss (c : Char) (pt : List Char) :
    ∀ (p s : List Char), (∀ x ∈ p, x ≠ c) →
    hasSub (p ++ s) (c :: pt) = hasSub s (c :: pt) := by
  intro p
  induction p with
  | nil =>
    intro s _
    rfl
  | cons a p ih =>
    intro s hmem
    have ha : a ≠ c := hmem a (List.mem_cons_self a p)
    have hbeq : (c == a) = false := beq_eq_false_iff_ne.mpr (Ne.symm ha)
    simp only [List.cons_append, hasSub, List.isPrefixOf]
    rw [hbeq]
    simp only [Bool.false_and, Bool.false_or]
    exact ih s (fun x hx => hmem x (List.mem_cons_of_mem a hx))

/-- Claim C1: for any sequence of non-empty fragments delivered for one turn
(the start-of-turn history ends with the just-appended USER message), the
per-fragment fold yields exactly one trailing MODEL message whose content is
the concatenation of the fragments in delivery order; with zero fragments no
MODEL message is appended. -/
theorem fold_one_model_per_turn (h : List ChatMessage) (u : ChatMessage)
    (hu : h.getLast? = some u) (hrole : u.role = Role.user)
    (fs : List (List Char)) (hne : ∀ f ∈ fs, f ≠ []) :
    fs.foldl appendChunk h =
      h ++ (if fs.isEmpty then [] else [⟨Role.model, concatAll fs⟩]) := by
  apply foldl_appendChunk_fresh
  intro m hm
  rw [hu] at hm
  injection hm with hm
  subst hm
  intro hcontra
  rw [hrole] at hcontra
  exact Role.noConfusion hcontra

/-- Witness for C1 at the spec scenario fragments `Hel`, `lo!`. -/
theorem fold_one_model_per_turn_w :
    ([("Hel").data, ("lo!").data] : List (List Char)).foldl appendChunk
        [(⟨Role.user, ("hi").data⟩ : ChatMessage)] =
      [⟨Role.user, ("hi").data⟩, ⟨Role.model, ("Hello!").data⟩] := by
  have h := fold_one_model_per_turn [⟨Role.user, ("hi").data⟩] ⟨Role.user, ("hi").data⟩
      (by decide) rfl [("Hel").data, ("lo!").data] (by decide)
  rw [h]
  decide

set_option maxRecDepth 8192 in
/-- Claim C2 counterexample: with a FAILED send turn (session handle and plan
both present, history holding the pre-failure messages), `handleRetry`
restarts the whole session: the resulting history is just the fresh bootstrap
USER message plus the new MODEL reply, the pre-failure USER message
`cheap flights?` is gone, and the replayed utterance is the bootstrap prompt
rather than the last attempted one. -/
theorem retry_after_send_counterexample :
    (handleRetry c2FailedState true (InitOutcome.streaming okStream)).messages =
      [⟨Role.user, renderInitialPrompt tinyPlan⟩, ⟨Role.model, ("ok").data⟩] ∧
    ¬ ((⟨Role.user, ("cheap flights?").data⟩ : ChatMessage) ∈
        (handleRetry c2FailedState true (InitOutcome.streaming okStream)).messages) := by
  decide

/-- Claim C2 amended: when a plan is stored, retry after a failed send
re-invokes the whole session initialization with that plan: the history is
REPLACED by the single bootstrap USER message plus the new turn's MODEL
message; messages accumulated before the failure are discarded and the
replayed utterance is the bootstrap prompt, not the last attempted text. -/
theorem retry_replaces_history (s : AppState) (aistudio : Bool) (plan : TravelPlan)
    (stream : StreamBehavior) (hp : s.travelPlan = some plan) :
    (handleRetry s aistudio (InitOutcome.streaming stream)).messages =
      [(⟨Role.user, renderInitialPrompt plan⟩ : ChatMessage)] ++
        (if (stream.chunks.filter (fun c => !c.isEmpty)).isEmpty then []
         else [⟨Role.model, concatAll (stream.chunks.filter (fun c => !c.isEmpty))⟩]) :=
  handleRetry_streaming_messages s aistudio plan stream hp

/-- Witness for the amended C2 at the concrete failed-send state. -/
theorem retry_replaces_history_w :
    (handleRetry c2FailedState true (InitOutcome.streaming okStream)).messages =
      [(⟨Role.user, renderInitialPrompt tinyPlan⟩ : ChatMessage)] ++
        (if (okStream.chunks.filter (fun c => !c.isEmpty)).isEmpty then []
         else [⟨Role.model, concatAll (okStream.chunks.filter (fun c => !c.isEmpty))⟩]) :=
  retry_replaces_history c2FailedState true tinyPlan okStream rfl

/-- Claim C3 counterexample: a send submitted while a prior turn is loading
(`AWAITING_RESPONSE`) is silently dropped: the state is returned unchanged
and no error condition is surfaced (`error` stays `none`), contradicting the
claim that a SessionNotReady condition is raised in this case. -/
theorem send_not_ready_counterexample :
    handleSubmit c3LoadingState true (("hi").data) okStream = c3LoadingState ∧
    c3LoadingState.error = none := by
  decide

/-- Claim C3 amended: a send while loading is silently ignored (state,
including history, unchanged; no error surfaced); a send with no initialized
session (and not loading) surfaces an error and leaves the history unchanged.
In both not-READY cases no USER message is appended. -/
theorem send_not_ready_behavior (s : AppState) (aistudio : Bool) (input : List Char)
    (stream : StreamBehavior) :
    (s.isLoading = true → handleSubmit s aistudio input stream = s) ∧
    (s.isLoading = false → s.chatInitialized = false → trimNonempty input = true →
      (handleSubmit s aistudio input stream).messages = s.messages ∧
      (handleSubmit s aistudio input stream).error = some sessionNotInitKoMsg) := by
  constructor
  · intro hl
    simp [handleSubmit, hl]
  · intro hl hc ht
    simp [handleSubmit, handleSendMessage, hl, hc, ht]

/-- Witness for the amended C3: the loading case and the no-session case. -/
theorem send_not_ready_behavior_w :
    handleSubmit c3LoadingState true (("hi").data) okStream = c3LoadingState ∧
    (handleSubmit c3NoSessionState true (("hi").data) okStream).error =
      some sessionNotInitKoMsg :=
  ⟨(send_not_ready_behavior c3LoadingState true (("hi").data) okStream).1 rfl,
   ((send_not_ready_behavior c3NoSessionState true (("hi").data) okStream).2 rfl rfl
      (by decide)).2⟩

/-- Claim C4 counterexample: on the trace where session 1's stream is
superseded by a new `start` and then delivers a late fragment, the code's
step function folds the stale fragment into the current history (final
history `USER u2, MODEL stale`), diverging from the spec-mandated drop-stale
semantics. -/
theorem supersede_counterexample :
    runTrace stepCode c4Init c4Trace ≠ runTrace stepSpecDropStale c4Init c4Trace ∧
    (runTrace stepCode c4Init c4Trace).messages =
      [⟨Role.user, ("u2").data⟩, ⟨Role.model, ("stale").data⟩] := by
  decide

/-- Claim C4 amended: the implementation neither cancels the superseded
stream nor tags fragments with their session handle: a non-empty fragment
whose handle differs from the current one is folded into the current history
exactly like a live fragment. -/
theorem stale_fragment_folded (s : SessionTraceState) (h : Nat) (chunk : List Char)
    (hne : h ≠ s.currentHandle) (hc : chunk ≠ []) :
    stepCode s (StreamEvent.fragment h chunk) =
      { s with messages := appendChunk s.messages chunk } := by
  have hemp : chunk.isEmpty = false := by
    cases chunk with
    | nil => exact absurd rfl hc
    | cons a l => rfl
  simp [stepCode, hemp]

/-- Witness for the amended C4 at a concrete superseded handle. -/
theorem stale_fragment_folded_w :
    stepCode { messages := [⟨Role.user, ("u2").data⟩], currentHandle := 2 }
        (StreamEvent.fragment 1 (("stale").data)) =
      { messages := appendChunk [⟨Role.user, ("u2").data⟩] (("stale").data),
        currentHandle := 2 } :=
  stale_fragment_folded { messages := [⟨Role.user, ("u2").data⟩], currentHandle := 2 } 1
    (("stale").data) (by decide) (by decide)

/-- Claim C5: if the stream of a send turn fails part-way, the state is
FAILED (not loading, error surfaced) and the partially built MODEL message
(the fold of the fragments delivered before the failure) is retained in the
history exactly as built, after the turn's USER message. -/
theorem stream_failure_retains_partial (s : AppState) (aistudio : Bool) (text : List Char)
    (chunks : List (List Char)) (emsg : List Char) (hc : s.chatInitialized = true) :
    (handleSendMessage s aistudio text
        { chunks := chunks, ending := StreamTermination.failure emsg }).messages =
      (s.messages ++ [⟨Role.user, text⟩]) ++
        (if (chunks.filter (fun c => !c.isEmpty)).isEmpty then []
         else [⟨Role.model, concatAll (chunks.filter (fun c => !c.isEmpty))⟩]) ∧
    (handleSendMessage s aistudio text
        { chunks := chunks, ending := StreamTermination.failure emsg }).isLoading = false ∧
    (handleSendMessage s aistudio text
        { chunks := chunks, ending := StreamTermination.failure emsg }).error.isSome = true := by
  by_cases hsig : (hasSub emsg entityNotFoundSig && aistudio) = true
  · simp [handleSendMessage, sendMessage, hc, hsig, foldl_after_user]
  · simp [handleSendMessage, sendMessage, hc, hsig, foldl_after_user]

/-- Witness for C5 at the spec scenario: one fragment `Sure, ` then failure. -/
theorem stream_failure_retains_partial_w :
    (handleSendMessage c5State true (("Any cheap flights?").data) failAfterOneStream).messages =
      (c5State.messages ++ [⟨Role.user, ("Any cheap flights?").data⟩]) ++
        (if (failAfterOneStream.chunks.filter (fun c => !c.isEmpty)).isEmpty then []
         else [⟨Role.model, concatAll (failAfterOneStream.chunks.filter (fun c => !c.isEmpty))⟩]) ∧
    (handleSendMessage c5State true (("Any cheap flights?").data) failAfterOneStream).isLoading
      = false ∧
    (handleSendMessage c5State true (("Any cheap flights?").data) failAfterOneStream).error.isSome
      = true :=
  stream_failure_retains_partial c5State true (("Any cheap flights?").data)
    [("Sure, ").data] (("boom").data) rfl

/-- Claim C6: rendering the bootstrap utterance for the P6 profile by literal
replacement of each field token yields a text containing `Tokyo`, `3/1-3/5`,
`2`, `500000`, `backpacking`, `food` and no remaining brace tokens. -/
theorem template_substitution_p6 :
    (hasSub (renderInitialPrompt p6Profile) (("Tokyo").data) &&
     hasSub (renderInitialPrompt p6Profile) (("3/1-3/5").data) &&
     hasSub (renderInitialPrompt p6Profile) (("2").data) &&
     hasSub (renderInitialPrompt p6Profile) (("500000").data) &&
     hasSub (renderInitialPrompt p6Profile) (("backpacking").data) &&
     hasSub (renderInitialPrompt p6Profile) (("food").data) &&
     !((renderInitialPrompt p6Profile).contains (Char.ofNat 123)) &&
     !((renderInitialPrompt p6Profile).contains (Char.ofNat 125))) = true := by
  decide

/-- Claim C7: starting a new turn never extends a MODEL message of a
previous, closed turn: whatever the prior history is, after the new turn's
USER message is appended the fold leaves the prior history untouched and
puts the new turn's fragments into a fresh MODEL message. -/
theorem no_cross_turn_bleed (h : List ChatMessage) (t : List Char) (fs : List (List Char)) :
    fs.foldl appendChunk (h ++ [⟨Role.user, t⟩]) =
      (h ++ [⟨Role.user, t⟩]) ++ (if fs.isEmpty then [] else [⟨Role.model, concatAll fs⟩]) :=
  foldl_after_user h t fs

/-- Claim C8 counterexample: when `start` fails before the bootstrap USER
message is appended (first start: no plan stored, no session handle),
`handleRetry` does not re-invoke `start`: it clears the history and falls
back to re-collecting the profile, so the eventual history holds zero
bootstrap USER messages, not exactly one. -/
theorem retry_init_failure_counterexample :
    (handleRetry (initializeChatSession c8Init true tinyPlan (InitOutcome.initFails c8InitErr))
        true (InitOutcome.streaming okStream)).messages = [] ∧
    (handleRetry (initializeChatSession c8Init true tinyPlan (InitOutcome.initFails c8InitErr))
        true (InitOutcome.streaming okStream)).travelPlan = none := by
  decide

/-- Claim C8 amended: a `start(profile)` that fails before appending the
bootstrap USER message does not store the profile, so a following `retry`
clears the history (no bootstrap USER message at all) instead of re-invoking
`start`; only when a profile is stored does `retry` re-invoke `start`, and
then the eventual history contains exactly one USER message, the bootstrap
prompt, because `start` replaces the history outright. -/
theorem retry_init_behavior (s1 s2 : AppState) (aistudio : Bool) (plan : TravelPlan)
    (emsg : List Char) (stream : StreamBehavior) :
    (s1.travelPlan = none →
      (handleRetry (initializeChatSession s1 aistudio plan (InitOutcome.initFails emsg))
          aistudio (InitOutcome.streaming stream)).messages = []) ∧
    (s2.travelPlan = some plan →
      ((handleRetry s2 aistudio (InitOutcome.streaming stream)).messages.filter
          (fun m => decide (m.role = Role.user))) =
        [(⟨Role.user, renderInitialPrompt plan⟩ : ChatMessage)]) := by
  constructor
  · intro hp
    simp [initializeChatSession, handleRetry, hp]
  · intro hp
    rw [handleRetry_streaming_messages s2 aistudio plan stream hp]
    cases hb : (stream.chunks.filter (fun c => !c.isEmpty)).isEmpty with
    | true => simp [List.filter]
    | false => simp [List.filter]

/-- Witness for the amended C8: the failed-first-start case and the
stored-plan case. -/
theorem retry_init_behavior_w :
    (handleRetry (initializeChatSession c8Init true tinyPlan (InitOutcome.initFails c8InitErr))
        true (InitOutcome.streaming okStream)).messages = [] ∧
    ((handleRetry c2FailedState true (InitOutcome.streaming okStream)).messages.filter
        (fun m => decide (m.role = Role.user))) =
      [(⟨Role.user, renderInitialPrompt tinyPlan⟩ : ChatMessage)] :=
  ⟨(retry_init_behavior c8Init c2FailedState true tinyPlan c8InitErr okStream).1 rfl,
   (retry_init_behavior c8Init c2FailedState true tinyPlan c8InitErr okStream).2 rfl⟩

/-- Claim C9 counterexample: a stream failure whose cause lacks the
entity-not-found signature but whose text mentions `API key` still
invalidates the stored profile, because the App-level catch only tests the
surfaced message for the substring `API key`; the claim that failures
without the signature never invalidate the profile is therefore false. -/
theorem credential_classify_counterexample :
    hasSub c9Emsg entityNotFoundSig = false ∧
    (handleSendMessage c9State true (("hi").data)
        { chunks := [], ending := StreamTermination.failure c9Emsg }).travelPlan = none := by
  decide

/-- Claim C9 amended: with the key-selection environment available, a stream
failure carrying the entity-not-found signature triggers the key-selection
prompt and invalidates the stored profile; a failure without the signature
invalidates the profile exactly when its own message contains the substring
`API key`, and preserves it otherwise. -/
theorem credential_classification (s : AppState) (text : List Char)
    (chunks : List (List Char)) (emsg : List Char)
    (hc : s.chatInitialized = true) (hne : emsg ≠ []) :
    (hasSub emsg entityNotFoundSig = true →
      (sendMessage true true text s.messages
          { chunks := chunks, ending := StreamTermination.failure emsg }).prompted = true ∧
      (handleSendMessage s true text
          { chunks := chunks, ending := StreamTermination.failure emsg }).travelPlan = none) ∧
    (hasSub emsg entityNotFoundSig = false →
      (handleSendMessage s true text
          { chunks := chunks, ending := StreamTermination.failure emsg }).travelPlan =
        (if hasSub emsg apiKeyMarker then none else s.travelPlan)) := by
  have hsel : hasSub apiKeySelectMsg apiKeyMarker = true := by decide
  constructor
  · intro hsig
    constructor
    · simp [sendMessage, hsig]
    · simp [handleSendMessage, sendMessage, hc, hsig, hsel]
  · intro hsig
    have hw : emsg.isEmpty = false := by
      cases emsg with
      | nil => exact absurd rfl hne
      | cons a l => rfl
    have hmark : apiKeyMarker = ('A') :: (("PI key").data) := by decide
    have hkey : hasSub (failedWrapPre ++ emsg) apiKeyMarker = hasSub emsg apiKeyMarker := by
      rw [hmark]
      exact hasSub_append_head_miss ('A') (("PI key").data) failedWrapPre emsg (by decide)
    simp [handleSendMessage, sendMessage, hc, hsig, hw, hkey]

/-- Witness for the amended C9: the signature case prompts and invalidates;
the plain `boom` failure preserves the profile. -/
theorem credential_classification_w :
    ((sendMessage true true (("hi").data) c9State.messages
        { chunks := [], ending := StreamTermination.failure entityNotFoundSig }).prompted = true ∧
      (handleSendMessage c9State true (("hi").data)
        { chunks := [], ending := StreamTermination.failure entityNotFoundSig }).travelPlan
          = none) ∧
    (handleSendMessage c9State true (("hi").data)
        { chunks := [], ending := StreamTermination.failure (("boom").data) }).travelPlan =
      (if hasSub (("boom").data) apiKeyMarker then none else c9State.travelPlan) :=
  ⟨(credential_classification c9State (("hi").data) [] entityNotFoundSig rfl
      (by decide)).1 (by decide),
   (credential_classification c9State (("hi").data) [] (("boom").data) rfl
      (by decide)).2 (by decide)⟩

/-- Claim C10: the observable behavior of `sendMessage` is independent of its
`history` argument: for any two histories the delivered callback sequence,
the key-selection prompt, and the returned/thrown outcome are identical —
the parameter is never read. -/
theorem sendMessage_ignores_history (chatInitialized aistudio : Bool) (message : List Char)
    (h1 h2 : List ChatMessage) (stream : StreamBehavior) :
    sendMessage chatInitialized aistudio message h1 stream =
      sendMessage chatInitialized aistudio message h2 stream := rfl
